import Mathlib

/-!
Shallow embedding of the miniget download engine (`src/unnamed/part_001`,
first document: the TypeScript `function Miniget`).  Machine work is done on
`Nat`; JavaScript `undefined` / `NaN` header values are modelled as `none` of
an `Option`, and JavaScript truthiness (`0`, `NaN`, `undefined`, `""` falsy)
is spelled out at each use site.
-/

namespace Miniget

/-- Backoff pair `opts.backoff` — `{ inc, max }` in milliseconds. -/
structure Backoff where
  inc : Nat
  maxB : Nat
deriving DecidableEq, Repr

/-- Caller-supplied options relevant to the engine (`Miniget.Options`);
each field is `none` when the caller omitted it. -/
structure UserOptions where
  maxRedirects : Option Nat := none
  maxRetries : Option Nat := none
  maxReconnects : Option Nat := none
  backoff : Option Backoff := none
  method : Option String := none
deriving DecidableEq, Repr

/-- Options after `Object.assign({}, Miniget.defaultOptions, options)`
(`Miniget.DefaultOptions`): the four engine fields are always present. -/
structure MergedOptions where
  maxRedirects : Nat
  maxRetries : Nat
  maxReconnects : Nat
  backoff : Backoff
  method : Option String
deriving DecidableEq, Repr

/-- Defaults `Miniget.defaultOptions` (src/unnamed/part_001 lines 62-67). -/
def defaultOptions : MergedOptions :=
  { maxRedirects := 10
    maxRetries := 2
    maxReconnects := 0
    backoff := { inc := 100, maxB := 10000 }
    method := none }

/-- Merge `Object.assign({}, Miniget.defaultOptions, options)`: a user-supplied
field overrides the default, an omitted field keeps the default. -/
def mergeOptions (u : UserOptions) : MergedOptions :=
  { maxRedirects := u.maxRedirects.getD defaultOptions.maxRedirects
    maxRetries := u.maxRetries.getD defaultOptions.maxRetries
    maxReconnects := u.maxReconnects.getD defaultOptions.maxReconnects
    backoff := u.backoff.getD defaultOptions.backoff
    method := u.method }

/-- JavaScript `a || b` on a number that may be `undefined`/`NaN` (`none`):
`0`, `NaN` and `undefined` are falsy. -/
def jsOrNat (a : Option Nat) (b : Nat) : Nat :=
  match a with
  | some n => if n = 0 then b else n
  | none => b

/-- Greedy run of decimal digits at the head of a character list
(the `\d+` / `\d*` pieces of the Range regex). -/
def takeDigits : List Char → List Char × List Char
  | [] => ([], [])
  | c :: cs =>
    if c.isDigit then
      let p := takeDigits cs
      (c :: p.1, p.2)
    else ([], c :: cs)

/-- Decimal value of a digit run (`parseInt(..., 10)` on a digit string). -/
def digitsToNat (ds : List Char) : Nat :=
  ds.foldl (fun a c => a * 10 + (c.toNat - 48)) 0

/-- Try to match the regex `bytes=(\d+)-(\d+)?` at the very head of the
character list; the second component is `none` when group 2 is absent
(JavaScript `parseInt(undefined)` = `NaN`). -/
def matchRangeAt (cs : List Char) : Option (Nat × Option Nat) :=
  match cs with
  | 'b' :: 'y' :: 't' :: 'e' :: 's' :: '=' :: rest =>
    let p1 := takeDigits rest
    match p1.1 with
    | [] => none
    | _ :: _ =>
      match p1.2 with
      | '-' :: rest2 =>
        let p2 := takeDigits rest2
        match p2.1 with
        | [] => some (digitsToNat p1.1, none)
        | _ :: _ => some (digitsToNat p1.1, some (digitsToNat p2.1))
      | _ => none
  | _ => none

/-- Unanchored search for `bytes=(\d+)-(\d+)?` (the regex `exec` scans every
start position, taking the leftmost match). -/
def searchRange : List Char → Option (Nat × Option Nat)
  | [] => none
  | c :: cs =>
    match matchRangeAt (c :: cs) with
    | some r => some r
    | none => searchRange cs

/-- Initial `rangeStart` / `rangeEnd` (src/unnamed/part_001 lines 82, 86-92):
parsed once from any user `Range` header; `rangeStart` defaults to `0`,
`rangeEnd` stays `undefined`/`NaN` (`none`) when the header or its second
group is absent or the regex does not match. -/
def initRange (headerRange : Option String) : Nat × Option Nat :=
  match headerRange with
  | some h =>
    match searchRange h.data with
    | some r => r
    | none => (0, none)
  | none => (0, none)

/-- Rendering of `${rangeEnd || ''}` (line 164): `undefined`, `NaN` and `0` are all falsy
and render as the empty string, so the resumed request keeps an open end. -/
def rangeEndStr (rangeEnd : Option Nat) : String :=
  match rangeEnd with
  | some e => if e = 0 then "" else toString e
  | none => ""

/-- Mutable closure state of one `Miniget` call (the `DownloadSession`).
Stream-object facts needed by the destroy logic are carried as flags:
`activeRequest` / `activeDecodedStream` record non-nullness, and
`requestDestroyed`, `decodedUnpiped`, `decodedDestroyed` record the effects
of `streamDestroy`. -/
structure SessionState where
  opts : MergedOptions
  url : String
  destroyed : Bool
  activeRequest : Bool
  activeDecodedStream : Bool
  redirects : Nat
  retries : Nat
  reconnects : Nat
  retryTimer : Option Nat
  contentLength : Option Nat
  acceptRanges : Bool
  rangeStart : Nat
  rangeEnd : Option Nat
  downloaded : Nat
  destroyArgs : Option (Option String)
  requestDestroyed : Bool
  decodedUnpiped : Bool
  decodedDestroyed : Bool
deriving DecidableEq, Repr

/-- Fresh session state as set up at the top of `Miniget` (lines 70-92),
before the first `doDownload`. -/
def initialState (url : String) (u : UserOptions) (headerRange : Option String) :
    SessionState :=
  let o := mergeOptions u
  let r := initRange headerRange
  { opts := o
    url := url
    destroyed := false
    activeRequest := false
    activeDecodedStream := false
    redirects := 0
    retries := 0
    reconnects := 0
    retryTimer := none
    contentLength := none
    acceptRanges := false
    rangeStart := r.1
    rangeEnd := r.2
    downloaded := 0
    destroyArgs := none
    requestDestroyed := false
    decodedUnpiped := false
    decodedDestroyed := false }

/-- Values of `Miniget.MinigetError` as constructed by the source
(message and optional `statusCode` are recoverable from the constructor). -/
inductive MErr where
  | invalidUrl (u : String)
  | tooManyRedirects
  | missingRedirectLocation (status : Nat)
  | statusCode (code : Nat)
  | transport (msg : String)
deriving DecidableEq, Repr

/-- Message `err.message` for each error shape the source builds. -/
def MErr.toMessage : MErr → String
  | .invalidUrl u => "Invalid URL: " ++ u
  | .tooManyRedirects => "Too many redirects"
  | .missingRedirectLocation _ => "Redirect status code given with no location"
  | .statusCode c => "Status code: " ++ toString c
  | .transport m => m

/-- Argument record of `retryRequest` (`RetryOptions`); `retryAfter` is the
already-parsed numeric value, `none` for a missing header (`NaN`). -/
structure RetryOptions where
  statusCode : Option Nat := none
  err : Option MErr := none
  retryAfter : Option Nat := none
deriving DecidableEq, Repr

/-- What `retryRequest` decided: `noAction` is the `false` return,
the other two are the `true` returns with the scheduled timer delay and
the counter value carried on the emitted `retry` / `reconnect` event. -/
inductive RetryDecision where
  | noAction
  | retryScheduled (attempt : Nat) (delayMs : Nat)
  | reconnectScheduled (reconnectNo : Nat) (delayMs : Nat)
deriving DecidableEq, Repr

/-- Predicate `downloadHasStarted()` (line 101): `activeDecodedStream && downloaded > 0`. -/
def downloadHasStarted (s : SessionState) : Bool :=
  s.activeDecodedStream && decide (0 < s.downloaded)

/-- Predicate `downloadComplete()` (line 102): `!acceptRanges || downloaded === contentLength`;
`downloaded === undefined`/`NaN` is false, hence the `none` case. -/
def downloadComplete (s : SessionState) : Bool :=
  !s.acceptRanges ||
    (match s.contentLength with
     | some c => decide (s.downloaded = c)
     | none => false)

/-- Procedure `reconnect(err)` (lines 104-111): drop the decoded stream, reset the
retry counter, schedule `doDownload` after `min(backoff.inc, backoff.max)`
and emit `reconnect` with the current (already incremented) count. -/
def reconnect (s : SessionState) : RetryDecision × SessionState :=
  let ms := min s.opts.backoff.inc s.opts.backoff.maxB
  (RetryDecision.reconnectScheduled s.reconnects ms,
   { s with activeDecodedStream := false, retries := 0, retryTimer := some ms })

/-- Procedure `reconnectIfEndedEarly(err)` (lines 113-119).  JavaScript `&&` evaluates
left to right, so `reconnects++` runs only when the method is not `HEAD` and
the download is incomplete — and it increments even when the budget
comparison then fails. -/
def reconnectIfEndedEarly (s : SessionState) : RetryDecision × SessionState :=
  if s.opts.method ≠ some "HEAD" ∧ downloadComplete s = false then
    if s.reconnects < s.opts.maxReconnects then
      reconnect { s with reconnects := s.reconnects + 1 }
    else
      (RetryDecision.noAction, { s with reconnects := s.reconnects + 1 })
  else
    (RetryDecision.noAction, s)

/-- Procedure `retryRequest(retryOptions)` (lines 126-140).  `retries++` is reached
only when the first conjunct holds, and increments even when the budget
comparison fails; the delay is `retryAfter || min(retries * inc, max)` with
the incremented `retries`. -/
def retryRequest (s : SessionState) (ro : RetryOptions) : RetryDecision × SessionState :=
  if s.destroyed then
    (RetryDecision.noAction, s)
  else if downloadHasStarted s then
    reconnectIfEndedEarly s
  else if ro.statusCode = none ∨ ro.err.map MErr.toMessage = some "ENOTFOUND" then
    if s.retries < s.opts.maxRetries then
      let n := s.retries + 1
      let ms := jsOrNat ro.retryAfter (min (n * s.opts.backoff.inc) s.opts.backoff.maxB)
      (RetryDecision.retryScheduled n ms,
       { s with retries := n, retryTimer := some ms })
    else
      (RetryDecision.noAction, { s with retries := s.retries + 1 })
  else
    (RetryDecision.noAction, s)

/-- Result of the decoded stream's `end` event. -/
inductive EndOutcome where
  | endedStream
  | reconnecting (reconnectNo : Nat) (delayMs : Nat)
deriving DecidableEq, Repr

/-- Handler `onEnd` (lines 211-216): `if (!reconnectIfEndedEarly()) stream.end()`. -/
def onEnd (s : SessionState) : EndOutcome × SessionState :=
  match reconnectIfEndedEarly s with
  | (RetryDecision.reconnectScheduled n ms, s1) => (EndOutcome.reconnecting n ms, s1)
  | (_, s1) => (EndOutcome.endedStream, s1)

/-- Result of an abnormal attempt outcome routed through `retryRequest`. -/
inductive ErrorOutcome where
  | fatal (e : MErr)
  | retrying (d : RetryDecision)
deriving DecidableEq, Repr

/-- Handler `onError(err, statusCode)` (lines 186-193): emit the error on the stream
exactly when `retryRequest` declined to schedule anything. -/
def onError (s : SessionState) (e : MErr) (statusCode : Option Nat) :
    ErrorOutcome × SessionState :=
  match retryRequest s { statusCode := statusCode, err := some e } with
  | (RetryDecision.noAction, s1) => (ErrorOutcome.fatal e, s1)
  | (d, s1) => (ErrorOutcome.retrying d, s1)

/-- Handler `onData(chunk)` (line 209): `downloaded += chunk.length`. -/
def onData (s : SessionState) (chunkLen : Nat) : SessionState :=
  { s with downloaded := s.downloaded + chunkLen }

/-- Set `redirectStatusCodes` (line 13). -/
def redirectStatusCodes : List Nat := [301, 302, 303, 307, 308]

/-- Set `retryStatusCodes` (line 14). -/
def retryStatusCodes : List Nat := [429, 503]

/-- The headers of an incoming response, already run through the source's
own numeric conversions: `retryAfter` and `contentLengthHdr` are the
`parseInt` results, `none` standing for a missing header (`NaN`). -/
structure Response where
  statusCode : Nat
  location : Option String := none
  retryAfter : Option Nat := none
  contentLengthHdr : Option Nat := none
  acceptRangesHdr : Option String := none
  contentEncoding : Option String := none
deriving DecidableEq, Repr

/-- JavaScript truthiness of the stored `contentLength` number
(`undefined`/`NaN` are `none`; `0` is falsy). -/
def clTruthy : Option Nat → Bool
  | some n => decide (n ≠ 0)
  | none => false

/-- JavaScript `contentLength > 0` (false for `NaN`/`undefined`). -/
def clPos : Option Nat → Bool
  | some n => decide (0 < n)
  | none => false

/-- Lines 269-273: `if (!contentLength) { contentLength = parseInt(...);
acceptRanges = accept-ranges === 'bytes' && contentLength > 0 &&
maxReconnects > 0; }` — guarded by truthiness of the *stored* value, not by
being the first response. -/
def learnContentLength (s : SessionState) (res : Response) : SessionState :=
  if clTruthy s.contentLength then s
  else
    { s with
      contentLength := res.contentLengthHdr
      acceptRanges := (res.acceptRangesHdr = some "bytes" : Bool) &&
        clPos res.contentLengthHdr && decide (0 < s.opts.maxReconnects) }

/-- JavaScript `str.split(', ')`: cut the character list at every
occurrence of the two-character separator, scanning left to right;
`acc` holds the current token reversed. -/
def splitCommaSpaceAux : List Char → List Char → List String
  | [], acc => [String.mk acc.reverse]
  | ',' :: ' ' :: rest, acc => String.mk acc.reverse :: splitCommaSpaceAux rest []
  | c :: rest, acc => splitCommaSpaceAux rest (c :: acc)

/-- Split `header.split(', ')` on a whole string. -/
def splitCommaSpace (s : String) : List String := splitCommaSpaceAux s.data []

/-- Lines 259-268: starting from the raw response, iterate the
`content-encoding` tokens (split on `', '`) in reverse; pipe a decoder stage
for each token the registry resolves and wire its `error` to `onError`; skip
the rest.  A stage is recorded as the decoder the factory produced together
with the `error`-wired flag.  The loop runs only when a registry was supplied
and the header is truthy (a present, non-empty string). -/
def buildDecoderChain (acceptEncoding : Option (String → Option String))
    (contentEncoding : Option String) : List (String × Bool) :=
  match acceptEncoding with
  | none => []
  | some registry =>
    match contentEncoding with
    | none => []
    | some h =>
      if h = "" then []
      else
        ((splitCommaSpace h).reverse).foldl
          (fun acc enc =>
            match registry enc with
            | some d => acc ++ [(d, true)]
            | none => acc) []

/-- Classification of a response by the `httpLib.request` callback
(lines 218-281). -/
inductive ResponseOutcome where
  | ignored
  | fatal (e : MErr)
  | redirected (newUrl : String) (delayMs : Nat)
  | retrying (d : RetryDecision)
  | streaming (chain : List (String × Bool)) (pipeEndsStream : Bool)
deriving DecidableEq, Repr

/-- The response callback of `doDownload` (lines 218-281): destroyed-stream
guard, redirect branch, rate-limit branch, status-code branch, then the
success path (decoder chain, content-length learning, pipe with
`end: !acceptRanges`).  Line 226's `if (res.headers.location)` is a
JavaScript truthiness test, so a `Location` header that is present but
empty (`some ""`) falls into the fatal `MissingRedirectLocation` path just
like a missing one. -/
def handleResponse (s : SessionState) (res : Response)
    (acceptEncoding : Option (String → Option String)) :
    ResponseOutcome × SessionState :=
  if s.destroyed then
    (ResponseOutcome.ignored, s)
  else if res.statusCode ∈ redirectStatusCodes then
    if s.redirects ≥ s.opts.maxRedirects then
      (ResponseOutcome.fatal MErr.tooManyRedirects,
       { s with redirects := s.redirects + 1 })
    else
      match res.location with
      | none =>
        (ResponseOutcome.fatal (MErr.missingRedirectLocation res.statusCode),
         { s with redirects := s.redirects + 1 })
      | some loc =>
        if loc = "" then
          (ResponseOutcome.fatal (MErr.missingRedirectLocation res.statusCode),
           { s with redirects := s.redirects + 1 })
        else
          (ResponseOutcome.redirected loc
            (match res.retryAfter with
             | some ra => ra * 1000
             | none => 0),
           { s with url := loc, redirects := s.redirects + 1 })
  else if res.statusCode ∈ retryStatusCodes then
    match retryRequest s { retryAfter := res.retryAfter } with
    | (RetryDecision.noAction, s1) =>
      (ResponseOutcome.fatal (MErr.statusCode res.statusCode), s1)
    | (d, s1) => (ResponseOutcome.retrying d, s1)
  else if res.statusCode ≠ 0 ∧ (res.statusCode < 200 ∨ res.statusCode ≥ 400) then
    if res.statusCode ≥ 500 then
      match onError s (MErr.statusCode res.statusCode) (some res.statusCode) with
      | (ErrorOutcome.fatal e1, s1) => (ResponseOutcome.fatal e1, s1)
      | (ErrorOutcome.retrying d, s1) => (ResponseOutcome.retrying d, s1)
    else
      (ResponseOutcome.fatal (MErr.statusCode res.statusCode), s)
  else
    (ResponseOutcome.streaming
      (buildDecoderChain acceptEncoding res.contentEncoding)
      (!(learnContentLength { s with activeDecodedStream := true } res).acceptRanges),
     learnContentLength { s with activeDecodedStream := true } res)

/-- Values a request-descriptor field can hold; enough structure to tell
the engine-only option fields from wire-relevant ones. -/
inductive JVal where
  | num (n : Nat)
  | str (s : String)
  | backoffV (b : Backoff)
  | boolV (b : Bool)
  | objV
deriving DecidableEq, Repr

/-- A JavaScript object as an association list; `jsGet` reads the most
recent binding of a key. -/
def jsGet (o : List (String × JVal)) (k : String) : Option JVal :=
  (o.find? (fun p => p.1 == k)).map (fun p => p.2)

/-- Semantics of `Object.assign(target, source)`: every own key of `source` overrides the
same key of `target`; no key is removed. -/
def objectAssign (target source : List (String × JVal)) : List (String × JVal) :=
  source ++ target

/-- Line 161: the request descriptor handed to `httpLib.request` is
`Object.assign(parsed, opts)` — the parsed URL fields overlaid with *all*
option fields.  (The legacy `src/lib/index.js` additionally deletes the
engine keys; this source does not.) -/
def buildDescriptor (parsed optsObj : List (String × JVal)) : List (String × JVal) :=
  objectAssign parsed optsObj

/-- Lines 162-168: the `Range` header attached to a resumed attempt,
`none` when no override happens (not ranged-resumable or nothing
downloaded yet). -/
def resumeRangeHeader (s : SessionState) : Option String :=
  if s.acceptRanges ∧ 0 < s.downloaded then
    some ("bytes=" ++ toString (s.downloaded + s.rangeStart) ++ "-" ++
      rangeEndStr s.rangeEnd)
  else none

/-- Teardown `streamDestroy` (lines 300-305): destroy the request, unpipe and destroy
the decoded stream when one is active, clear the retry/reconnect timer. -/
def streamDestroy (s : SessionState) : SessionState :=
  { s with
    requestDestroyed := true
    decodedUnpiped := s.activeDecodedStream || s.decodedUnpiped
    decodedDestroyed := s.activeDecodedStream || s.decodedDestroyed
    retryTimer := none }

/-- Entry `stream._destroy` (lines 307-314): mark destroyed; tear down now when a
request exists, otherwise save the arguments for later. -/
def streamUnderscoreDestroy (s : SessionState) (args : Option String) : SessionState :=
  let s1 := { s with destroyed := true }
  if s1.activeRequest then streamDestroy s1
  else { s1 with destroyArgs := some args }

/-- Lines 218 and 285-287: `activeRequest` is assigned by `doDownload`; the
deferred `streamDestroy(...destroyArgs)` then runs when the stream was
destroyed while no request existed. -/
def attachRequest (s : SessionState) : SessionState :=
  let s1 := { s with activeRequest := true }
  if s1.destroyed then streamDestroy s1 else s1

/-- What the `Miniget` constructor itself does before returning (lines
69-99, 324-325): merge the options, set up the session state, schedule the
first `doDownload` on `process.nextTick`, and return the stream having
emitted nothing synchronously. -/
structure InitResult where
  state : SessionState
  firstAttemptScheduledAsync : Bool
  syncEventsEmitted : List String
deriving DecidableEq, Repr

/-- The `Miniget(url, options)` call: `process.nextTick(doDownload); return
stream;` — the first attempt runs on a later tick, never inside the call. -/
def minigetInit (url : String) (u : UserOptions) (headerRange : Option String) :
    InitResult :=
  { state := initialState url u headerRange
    firstAttemptScheduledAsync := true
    syncEventsEmitted := [] }

/-- A concrete decoder registry `{ gzip: gunzip, deflate: inflate }` used to
check the decode order of `content-encoding: gzip, deflate`. -/
def gzipDeflateRegistry : String → Option String := fun enc =>
  if enc = "gzip" then some "gunzip"
  else if enc = "deflate" then some "inflate"
  else none

/-- The merged options viewed as the JavaScript object that line 161 copies
onto the parsed URL: its own keys include every engine-only field. -/
def optsAsObject (o : MergedOptions) : List (String × JVal) :=
  [("maxRedirects", JVal.num o.maxRedirects),
   ("maxRetries", JVal.num o.maxRetries),
   ("maxReconnects", JVal.num o.maxReconnects),
   ("backoff", JVal.backoffV o.backoff)] ++
    (match o.method with
     | some m => [("method", JVal.str m)]
     | none => [])

/-- Bytes of the resource delivered by one attempt that resumes at absolute
offset `o` and manages to deliver `k` bytes: offsets `o, o+1, …, o+k-1`. -/
def attemptDelivery (resource : Nat → Nat) (o k : Nat) : List Nat :=
  (List.range k).map (fun i => resource (o + i))

/-- Bytes delivered across a whole session: each attempt resumes at
`rangeStart + downloaded` (exactly the offset the resumed `Range` header
requests) and advances `downloaded` by however many bytes it delivered. -/
def sessionDelivered (resource : Nat → Nat) (rs : Nat) : Nat → List Nat → List Nat
  | _, [] => []
  | d, k :: ks =>
    attemptDelivery resource (rs + d) k ++ sessionDelivered resource rs (d + k) ks

/-- A mid-transfer session with range-resume enabled: 100 bytes expected,
30 delivered, reconnect budget (1) already spent. -/
def sEndShortExhausted : SessionState :=
  { initialState "http://mysite.com/myfile" { maxReconnects := some 1 } none with
    activeDecodedStream := true
    acceptRanges := true
    contentLength := some 100
    downloaded := 30
    reconnects := 1 }

/-- The same transfer arrived at `downloaded == contentLength`. -/
def sEndComplete : SessionState :=
  { sEndShortExhausted with downloaded := 100 }

/-- A resumed session whose initial user header was `Range: bytes=5-300`
and which has delivered 30 bytes. -/
def sResume : SessionState :=
  { initialState "http://mysite.com/myfile" { maxReconnects := some 1 }
      (some "bytes=5-300") with
    acceptRanges := true
    downloaded := 30 }

/-- A fresh session about to receive its first response. -/
def sFresh : SessionState := initialState "http://mysite.com/path" {} none

/-- A fresh session whose options permit one reconnect. -/
def sFreshRec : SessionState :=
  initialState "http://mysite.com/path" { maxReconnects := some 1 } none

/-- A `302` response pointing at a new location, with `Retry-After: 3`. -/
def rRedirect : Response :=
  { statusCode := 302
    location := some "http://mysite.com/redirected"
    retryAfter := some 3 }

/-- A `429` rate-limit response with `Retry-After: 5`. -/
def rRateLimited : Response := { statusCode := 429, retryAfter := some 5 }

/-- A bare `500` response. -/
def rServerError : Response := { statusCode := 500 }

/-- A successful response that carries no `content-length` header. -/
def rOkNoLength : Response := { statusCode := 200 }

/-- A successful response advertising `content-length: 100` and
`accept-ranges: bytes`. -/
def rOkRanged : Response :=
  { statusCode := 200
    contentLengthHdr := some 100
    acceptRangesHdr := some "bytes" }

/-- State after `sFreshRec` processes its first successful response, which
lacked a `content-length` header. -/
def sAfterFirstOk : SessionState := (handleResponse sFreshRec rOkNoLength none).2

/-- State after the decoded stream of that first attempt errors before any
data and `retryRequest` schedules a retry. -/
def sAfterRetry : SessionState :=
  (retryRequest sAfterFirstOk { err := some (MErr.transport "read ECONNRESET") }).2

/-- State after the second attempt's successful response, which does carry
`content-length: 100`. -/
def sAfterSecondOk : SessionState := (handleResponse sAfterRetry rOkRanged none).2

/-! ### Helper lemmas -/

/-- The decoder-chain fold appends exactly the stages the registry resolves,
in iteration order. -/
lemma decoderFold_eq (registry : String → Option String) :
    ∀ (l : List String) (acc : List (String × Bool)),
      l.foldl
        (fun a enc =>
          match registry enc with
          | some d => a ++ [(d, true)]
          | none => a) acc
        = acc ++ l.filterMap (fun enc => (registry enc).map (fun d => (d, true))) := by
  intro l
  induction l with
  | nil => intro acc; simp
  | cons e t ih =>
    intro acc
    cases h : registry e with
    | none => simp [List.foldl_cons, List.filterMap_cons, h, ih]
    | some d => simp [List.foldl_cons, List.filterMap_cons, h, ih]

/-- Splitting one attempt's delivery range in two. -/
lemma attemptDelivery_add (resource : Nat → Nat) (o k m : Nat) :
    attemptDelivery resource o (k + m)
      = attemptDelivery resource o k ++ attemptDelivery resource (o + k) m := by
  unfold attemptDelivery
  rw [List.range_add, List.map_append, List.map_map]
  congr 1
  apply List.map_congr_left
  intro i _
  simp [Function.comp, Nat.add_assoc]

/-- Resuming each attempt at `rangeStart + downloaded` yields one contiguous
slice: no byte offset is repeated or skipped. -/
lemma sessionDelivered_eq (resource : Nat → Nat) (rs : Nat) :
    ∀ (ks : List Nat) (d : Nat),
      sessionDelivered resource rs d ks = attemptDelivery resource (rs + d) ks.sum := by
  intro ks
  induction ks with
  | nil => intro d; simp [sessionDelivered, attemptDelivery]
  | cons k t ih =>
    intro d
    simp only [sessionDelivered, List.sum_cons]
    rw [ih (d + k), attemptDelivery_add, ← Nat.add_assoc]

/-- No synthesized `Status code: n` message ever equals `'ENOTFOUND'`, so a
failure that carries a status code is never mistaken for a DNS failure. -/
lemma statusMessage_ne_enotfound (t : String) :
    "Status code: " ++ t ≠ "ENOTFOUND" := by
  intro h
  have h2 : ("Status code: " ++ t).data = "ENOTFOUND".data := congrArg String.data h
  rw [String.data_append] at h2
  have h3 : "Status code: ".data = 'S' :: "tatus code: ".data := rfl
  have h4 : "ENOTFOUND".data = 'E' :: "NOTFOUND".data := rfl
  rw [h3, h4, List.cons_append] at h2
  injection h2 with h5 _
  exact absurd h5 (by decide)

/-- Every redirect response processed by a live session bumps `redirects` by
exactly one and leaves `destroyed` and the options untouched, whichever
branch it takes. -/
lemma redirect_step (s : SessionState) (res : Response)
    (ae : Option (String → Option String))
    (hd : s.destroyed = false) (hs : res.statusCode ∈ redirectStatusCodes) :
    (handleResponse s res ae).2.redirects = s.redirects + 1 ∧
      (handleResponse s res ae).2.destroyed = false ∧
      (handleResponse s res ae).2.opts = s.opts := by
  unfold handleResponse
  rw [hd]
  simp only [Bool.false_eq_true, if_false, if_pos hs]
  by_cases hb : s.redirects ≥ s.opts.maxRedirects
  · simp [hb, hd]
  · cases hl : res.location with
    | none => simp [hb, hl, hd]
    | some loc => by_cases hle : loc = "" <;> simp [hb, hl, hle, hd]

/-- Iterating the redirect step from a live state: after `k` redirect
responses the counter reads `k` more and the session is still live. -/
lemma redirect_iterate (res : Response) (ae : Option (String → Option String))
    (hs : res.statusCode ∈ redirectStatusCodes) (s : SessionState)
    (hd : s.destroyed = false) :
    ∀ k : Nat,
      ((fun st => (handleResponse st res ae).2)^[k] s).redirects = s.redirects + k ∧
        ((fun st => (handleResponse st res ae).2)^[k] s).destroyed = false ∧
        ((fun st => (handleResponse st res ae).2)^[k] s).opts = s.opts := by
  intro k
  induction k with
  | zero => simpa using hd
  | succ n ih =>
    rw [Function.iterate_succ_apply']
    obtain ⟨h1, h2, h3⟩ := ih
    obtain ⟨g1, g2, g3⟩ := redirect_step _ res ae h2 hs
    refine ⟨?_, g2, ?_⟩
    · rw [g1, h1, Nat.add_assoc]
    · rw [g3, h3]

/-- Lookup law for `Object.assign(parsed, opts)`: the source's binding wins,
the target's binding survives where the source has none; no key vanishes. -/
lemma jsGet_buildDescriptor (parsed optsObj : List (String × JVal)) (k : String) :
    jsGet (buildDescriptor parsed optsObj) k
      = (jsGet optsObj k).or (jsGet parsed k) := by
  unfold jsGet buildDescriptor objectAssign
  rw [List.find?_append]
  cases optsObj.find? (fun p => p.1 == k) with
  | none => simp
  | some v => simp

/-! ### Claim theorems -/

/-- C8, counterexample: the default `maxRedirects` baked into
`Miniget.defaultOptions` is `10`, not the `2` the claim states, so a call
that omits the option is merged against `10`. -/
theorem claim8_counterexample :
    (minigetInit "http://mysite.com/path" {} none).state.opts.maxRedirects ≠ 2 := by
  decide

/-- C8 (amended): `Miniget(url, options)` merges the caller's options
against the defaults maxRedirects=10, maxRetries=2, maxReconnects=0,
backoff={inc:100ms, max:10000ms}, returns the Output Stream immediately,
and schedules the first attempt on `process.nextTick` — never synchronously
within the call — emitting no event before returning. -/
theorem claim8_corrected (url : String) (u : UserOptions) (hr : Option String) :
    (minigetInit url u hr).state.opts.maxRedirects = u.maxRedirects.getD 10 ∧
      (minigetInit url u hr).state.opts.maxRetries = u.maxRetries.getD 2 ∧
      (minigetInit url u hr).state.opts.maxReconnects = u.maxReconnects.getD 0 ∧
      (minigetInit url u hr).state.opts.backoff =
        u.backoff.getD { inc := 100, maxB := 10000 } ∧
      (minigetInit url u hr).firstAttemptScheduledAsync = true ∧
      (minigetInit url u hr).syncEventsEmitted = [] := by
  refine ⟨?_, ?_, ?_, ?_, rfl, rfl⟩ <;>
    simp [minigetInit, initialState, mergeOptions, defaultOptions]

/-- C9, counterexample: the descriptor handed to the transport is
`Object.assign(parsed, opts)` with no key deletion, so on the very first
attempt it still carries the engine-only key `maxRedirects` (value `10`
under default options) — contradicting "never carries the engine-only
keys". -/
theorem claim9_counterexample :
    jsGet
      (buildDescriptor
        [("protocol", JVal.str "http:"), ("host", JVal.str "mysite.com")]
        (optsAsObject defaultOptions)) "maxRedirects"
      = some (JVal.num 10) := by
  decide

/-- C9 (amended): the request descriptor is the parsed URL overlaid with
*all* of the merged options' own fields — the user's fields are carried, but
the engine-only keys maxRedirects, maxRetries, maxReconnects and backoff are
copied onto the descriptor too; nothing is excluded (only the legacy
`src/lib/index.js` deleted them). -/
theorem claim9_corrected (parsed : List (String × JVal)) (o : MergedOptions)
    (k : String) :
    jsGet (buildDescriptor parsed (optsAsObject o)) k
        = (jsGet (optsAsObject o) k).or (jsGet parsed k) ∧
      jsGet (buildDescriptor parsed (optsAsObject o)) "maxRedirects"
        = some (JVal.num o.maxRedirects) ∧
      jsGet (buildDescriptor parsed (optsAsObject o)) "maxRetries"
        = some (JVal.num o.maxRetries) ∧
      jsGet (buildDescriptor parsed (optsAsObject o)) "maxReconnects"
        = some (JVal.num o.maxReconnects) ∧
      jsGet (buildDescriptor parsed (optsAsObject o)) "backoff"
        = some (JVal.backoffV o.backoff) := by
  refine ⟨jsGet_buildDescriptor parsed (optsAsObject o) k, ?_, ?_, ?_, ?_⟩ <;>
    rw [jsGet_buildDescriptor] <;>
    simp [optsAsObject, jsGet, List.find?]

/-- C10: once the stream is destroyed no retry or reconnect is ever
initiated (`retryRequest` returns `false` and changes nothing); destroying
with an active request tears it down at once — the request is destroyed, an
active decoded stream is unpiped and destroyed, and the pending
retry/reconnect timer is cleared; destroying before any request exists saves
the destroy arguments and `doDownload` applies the same teardown as soon as
the request is created. -/
theorem claim10_confirmed (s : SessionState) (ro : RetryOptions)
    (args : Option String) :
    (s.destroyed = true → retryRequest s ro = (RetryDecision.noAction, s)) ∧
      (s.activeRequest = true →
        (streamUnderscoreDestroy s args).destroyed = true ∧
          (streamUnderscoreDestroy s args).requestDestroyed = true ∧
          (streamUnderscoreDestroy s args).retryTimer = none ∧
          (s.activeDecodedStream = true →
            (streamUnderscoreDestroy s args).decodedUnpiped = true ∧
              (streamUnderscoreDestroy s args).decodedDestroyed = true)) ∧
      (s.activeRequest = false →
        (streamUnderscoreDestroy s args).destroyed = true ∧
          (streamUnderscoreDestroy s args).destroyArgs = some args ∧
          (attachRequest (streamUnderscoreDestroy s args)).requestDestroyed = true ∧
          (attachRequest (streamUnderscoreDestroy s args)).retryTimer = none) := by
  refine ⟨?_, ?_, ?_⟩
  · intro h
    simp [retryRequest, h]
  · intro h
    refine ⟨?_, ?_, ?_, ?_⟩
    · simp [streamUnderscoreDestroy, streamDestroy, h]
    · simp [streamUnderscoreDestroy, streamDestroy, h]
    · simp [streamUnderscoreDestroy, streamDestroy, h]
    · intro h2
      constructor <;> simp [streamUnderscoreDestroy, streamDestroy, h, h2]
  · intro h
    simp [streamUnderscoreDestroy, streamDestroy, attachRequest, h]

/-- C10, witness: the destroyed-guard and both destroy paths at concrete
states. -/
theorem claim10_confirmed_witness :
    retryRequest { sFresh with destroyed := true } {}
        = (RetryDecision.noAction, { sFresh with destroyed := true }) ∧
      (streamUnderscoreDestroy { sFresh with activeRequest := true } none).retryTimer
        = none ∧
      (streamUnderscoreDestroy sFresh none).destroyArgs = some none ∧
      (attachRequest (streamUnderscoreDestroy sFresh none)).requestDestroyed = true := by
  refine ⟨?_, ?_, ?_, ?_⟩
  · exact (claim10_confirmed { sFresh with destroyed := true } {} none).1 rfl
  · exact ((claim10_confirmed { sFresh with activeRequest := true } {} none).2.1 rfl).2.2.1
  · exact ((claim10_confirmed sFresh {} none).2.2 rfl).2.1
  · exact ((claim10_confirmed sFresh {} none).2.2 rfl).2.2.1

/-- C5: with a decoder registry and a truthy `content-encoding` header, the
pipeline is exactly the stages the registry resolves, taken over the
comma-separated tokens in reverse order, each with its error channel wired
(`true` flag); unmatched tokens are skipped.  `content-encoding: gzip,
deflate` therefore decodes deflate-then-gzip, and a missing header or
missing registry leaves the pipeline empty (bytes pass straight through). -/
theorem claim5_confirmed (registry : String → Option String) (h : String)
    (ce : Option String) (ae : Option (String → Option String)) :
    (h ≠ "" →
        buildDecoderChain (some registry) (some h)
          = ((splitCommaSpace h).reverse).filterMap
              (fun enc => (registry enc).map (fun d => (d, true)))) ∧
      buildDecoderChain none ce = [] ∧
      buildDecoderChain ae none = [] ∧
      buildDecoderChain (some gzipDeflateRegistry) (some "gzip, deflate")
        = [("inflate", true), ("gunzip", true)] := by
  refine ⟨?_, rfl, ?_, by decide⟩
  · intro hne
    show (if h = "" then []
      else ((splitCommaSpace h).reverse).foldl
        (fun acc enc =>
          match registry enc with
          | some d => acc ++ [(d, true)]
          | none => acc) []) = _
    rw [if_neg hne, decoderFold_eq registry, List.nil_append]
  · cases ae <;> rfl

/-- C5, witness: the reversed-order chain at the spec's own example header. -/
theorem claim5_confirmed_witness :
    ("gzip, deflate" ≠ "") ∧
      buildDecoderChain (some gzipDeflateRegistry) (some "gzip, deflate")
        = ((splitCommaSpace "gzip, deflate").reverse).filterMap
            (fun enc => (gzipDeflateRegistry enc).map (fun d => (d, true))) :=
  ⟨by decide,
   (claim5_confirmed gzipDeflateRegistry "gzip, deflate" none none).1 (by decide)⟩

/-- C2: whenever range-resume is enabled and bytes have been delivered, the
resumed attempt carries `Range: bytes=<rangeStart + downloaded>-<rangeEnd or
empty>` with `rangeStart`/`rangeEnd` parsed once from the user's initial
Range header (default start 0, open end when the header or its end group is
absent); and resuming every attempt at offset `rangeStart + downloaded`
makes the union of all attempts' bytes one contiguous slice of the resource
— no duplicate and no missing offsets. -/
theorem claim2_confirmed (hr : Option String) (s : SessionState)
    (h1 : s.rangeStart = (initRange hr).1) (h2 : s.rangeEnd = (initRange hr).2)
    (h3 : s.acceptRanges = true) (h4 : 0 < s.downloaded) :
    resumeRangeHeader s
        = some ("bytes=" ++ toString ((initRange hr).1 + s.downloaded) ++ "-" ++
            rangeEndStr (initRange hr).2) ∧
      initRange none = (0, none) ∧
      (∀ (resource : Nat → Nat) (ks : List Nat),
        sessionDelivered resource (initRange hr).1 0 ks
          = attemptDelivery resource (initRange hr).1 ks.sum) := by
  refine ⟨?_, rfl, ?_⟩
  · unfold resumeRangeHeader
    rw [if_pos ⟨h3, h4⟩, h1, h2, Nat.add_comm]
  · intro resource ks
    rw [sessionDelivered_eq, Nat.add_zero]

/-- C2, witness: a session started with `Range: bytes=5-300` that has
delivered 30 bytes resumes with `Range: bytes=35-300`. -/
theorem claim2_confirmed_witness :
    sResume.acceptRanges = true ∧ 0 < sResume.downloaded ∧
      resumeRangeHeader sResume
        = some ("bytes=" ++ toString ((initRange (some "bytes=5-300")).1 + 30) ++
            "-" ++ rangeEndStr (initRange (some "bytes=5-300")).2) :=
  ⟨by decide, by decide,
   (claim2_confirmed (some "bytes=5-300") sResume rfl rfl (by decide) (by decide)).1⟩

/-- C1, counterexample: with range-resume enabled, 30 of 100 bytes
delivered and the reconnect budget spent (`reconnects = maxReconnects = 1`),
a clean end of the decoded stream makes `onEnd` end the Output Stream —
no fatal error is surfaced, the short transfer is silently accepted as
success, contradicting the claim (the repository's own test "without enough
reconnects → Downloads partial file" expects exactly this `end`). -/
theorem claim1_counterexample :
    (onEnd sEndShortExhausted).1 = EndOutcome.endedStream ∧
      sEndShortExhausted.acceptRanges = true ∧
      sEndShortExhausted.contentLength = some 100 ∧
      sEndShortExhausted.downloaded < 100 ∧
      sEndShortExhausted.opts.maxReconnects ≤ sEndShortExhausted.reconnects := by
  decide

/-- C1 (amended): with range-resume enabled, a decoded-stream end at
`bytesDownloaded == contentLength` ends the Output Stream; an end short of
`contentLength` is routed through the reconnect decision, which schedules a
reconnect while budget remains — but once the budget is exhausted the
Output Stream is ended anyway, the premature end silently accepted as
success.  A fatal error with `bytesDownloaded < contentLength` surfaces
only when the attempt is interrupted by an *error* event after the budget
is exhausted. -/
theorem claim1_corrected (s : SessionState) (L : Nat) (e : MErr)
    (sc : Option Nat) (har : s.acceptRanges = true)
    (hcl : s.contentLength = some L) :
    (s.downloaded = L → (onEnd s).1 = EndOutcome.endedStream) ∧
      (s.opts.method ≠ some "HEAD" → s.downloaded ≠ L →
        s.reconnects < s.opts.maxReconnects →
        (onEnd s).1 = EndOutcome.reconnecting (s.reconnects + 1)
          (min s.opts.backoff.inc s.opts.backoff.maxB)) ∧
      (s.downloaded ≠ L → s.opts.maxReconnects ≤ s.reconnects →
        (onEnd s).1 = EndOutcome.endedStream) ∧
      (s.destroyed = false → downloadHasStarted s = true →
        s.opts.maxReconnects ≤ s.reconnects →
        (onError s e sc).1 = ErrorOutcome.fatal e) := by
  refine ⟨?_, ?_, ?_, ?_⟩
  · intro hdl
    simp [onEnd, reconnectIfEndedEarly, downloadComplete, har, hcl, hdl]
  · intro hm hdl hb
    simp [onEnd, reconnectIfEndedEarly, reconnect, downloadComplete,
      har, hcl, hdl, hm, hb]
  · intro hdl hb
    have hb2 : ¬s.reconnects < s.opts.maxReconnects := Nat.not_lt.mpr hb
    by_cases hm : s.opts.method = some "HEAD"
    · simp [onEnd, reconnectIfEndedEarly, downloadComplete, har, hcl, hdl, hm, hb2]
    · simp [onEnd, reconnectIfEndedEarly, reconnect, downloadComplete,
        har, hcl, hdl, hm, hb2]
  · intro hds hhs hb
    have hb2 : ¬s.reconnects < s.opts.maxReconnects := Nat.not_lt.mpr hb
    unfold onError retryRequest
    rw [hds]
    simp only [Bool.false_eq_true, if_false, hhs, if_true]
    unfold reconnectIfEndedEarly
    by_cases hc : s.opts.method ≠ some "HEAD" ∧ downloadComplete s = false
    · rw [if_pos hc, if_neg hb2]
    · rw [if_neg hc]

/-- C1, witness: a completed ranged transfer (all 100 bytes delivered) ends
the Output Stream. -/
theorem claim1_corrected_witness :
    sEndComplete.acceptRanges = true ∧ sEndComplete.contentLength = some 100 ∧
      sEndComplete.downloaded = 100 ∧
      (onEnd sEndComplete).1 = EndOutcome.endedStream :=
  ⟨by decide, by decide, by decide,
   (claim1_corrected sEndComplete 100 (MErr.transport "socket hang up") none
      (by decide) (by decide)).1 (by decide)⟩

/-- C6, counterexample: a fresh session receiving `429` with
`Retry-After: 5` schedules the retry after 5 *milliseconds* — the
`retry-after` value is used as-is on this path, not converted from seconds
to milliseconds (that would be 5000), contradicting the claim's "(seconds,
converted to milliseconds) … for redirects and rate-limit retries". -/
theorem claim6_counterexample :
    (handleResponse sFresh rRateLimited none).1
        = ResponseOutcome.retrying (RetryDecision.retryScheduled 1 5) ∧
      rRateLimited.retryAfter = some 5 ∧ (5 : Nat) ≠ 5 * 1000 := by
  decide

/-- C6 (amended): the n-th retry waits `min(n * backoff.inc, backoff.max)`
ms; every reconnect waits `min(backoff.inc, backoff.max)` regardless of the
reconnect count; a server-supplied `Retry-After` overrides the computed
delay when present — converted from seconds to milliseconds for followed
redirects (ones with a truthy `Location`), but taken as-is (already treated
as milliseconds) for rate-limit retries. -/
theorem claim6_corrected (s : SessionState) (ro : RetryOptions)
    (res : Response) (ae : Option (String → Option String)) (loc : String)
    (ra n ms : Nat) :
    (s.destroyed = false → downloadHasStarted s = false →
        ro.statusCode = none → ro.retryAfter = none →
        s.retries < s.opts.maxRetries →
        (retryRequest s ro).1 = RetryDecision.retryScheduled (s.retries + 1)
          (min ((s.retries + 1) * s.opts.backoff.inc) s.opts.backoff.maxB)) ∧
      ((reconnectIfEndedEarly s).1 = RetryDecision.reconnectScheduled n ms →
        ms = min s.opts.backoff.inc s.opts.backoff.maxB) ∧
      (s.destroyed = false → res.statusCode ∈ redirectStatusCodes →
        s.redirects < s.opts.maxRedirects → res.location = some loc → loc ≠ "" →
        res.retryAfter = some ra →
        (handleResponse s res ae).1 = ResponseOutcome.redirected loc (ra * 1000)) ∧
      (s.destroyed = false → downloadHasStarted s = false →
        res.statusCode ∈ retryStatusCodes → res.retryAfter = some ra → ra ≠ 0 →
        s.retries < s.opts.maxRetries →
        (handleResponse s res ae).1
          = ResponseOutcome.retrying (RetryDecision.retryScheduled (s.retries + 1) ra)) := by
  refine ⟨?_, ?_, ?_, ?_⟩
  · intro hds hhs hsc hra hlt
    simp [retryRequest, hds, hhs, hsc, hra, hlt, jsOrNat]
  · intro hrec
    unfold reconnectIfEndedEarly at hrec
    by_cases hc : s.opts.method ≠ some "HEAD" ∧ downloadComplete s = false
    · rw [if_pos hc] at hrec
      by_cases hb : s.reconnects < s.opts.maxReconnects
      · rw [if_pos hb] at hrec
        unfold reconnect at hrec
        simp at hrec
        exact hrec.2.symm
      · rw [if_neg hb] at hrec
        simp at hrec
    · rw [if_neg hc] at hrec
      simp at hrec
  · intro hds hrs hlt hloc hne hra
    have hnb : ¬s.opts.maxRedirects ≤ s.redirects := Nat.not_le.mpr hlt
    simp [handleResponse, hds, hrs, hloc, hne, hra, hnb]
  · intro hds hhs hrs hra hnz hlt
    have hfin : res.statusCode ∉ redirectStatusCodes := by
      have hrs2 : res.statusCode = 429 ∨ res.statusCode = 503 := by
        simpa [retryStatusCodes] using hrs
      simp only [redirectStatusCodes, List.mem_cons, List.not_mem_nil, or_false]
      omega
    simp [handleResponse, hds, hfin, hrs, retryRequest, hhs, hlt, jsOrNat, hra, hnz]

/-- C6, witness: first retry delay 100 ms (min(1·100, 10000)), a reconnect
delay 100 ms, and a redirect honouring `Retry-After: 3` as 3000 ms. -/
theorem claim6_corrected_witness :
    (retryRequest sFresh { err := some (MErr.transport "ENOTFOUND") }).1
        = RetryDecision.retryScheduled 1 (min (1 * 100) 10000) ∧
      (handleResponse sFresh rRedirect none).1
        = ResponseOutcome.redirected "http://mysite.com/redirected" (3 * 1000) := by
  constructor
  · exact (claim6_corrected sFresh { err := some (MErr.transport "ENOTFOUND") }
      rRedirect none "" 0 0 0).1 (by decide) (by decide) (by decide) (by decide)
      (by decide)
  · exact (claim6_corrected sFresh {} rRedirect none
      "http://mysite.com/redirected" 3 0 0).2.2.1 (by decide) (by decide)
      (by decide) (by decide) (by decide) (by decide)

/-- C7, counterexample: the guard is `if (!contentLength)`, not "first
response only".  A reachable trace — first successful response without a
`content-length` header, decoded-stream error before any data, scheduled
retry, second successful response with `content-length: 100` and
`accept-ranges: bytes` — leaves `contentLength` unset after the first
response and then has the *second* response set both `contentLength` and
`acceptRanges`, contradicting "decided exactly once, from the first
successful response only; no later response changes either value". -/
theorem claim7_counterexample :
    sAfterFirstOk.contentLength = none ∧ sAfterFirstOk.acceptRanges = false ∧
      (retryRequest sAfterFirstOk
          { err := some (MErr.transport "read ECONNRESET") }).1
        = RetryDecision.retryScheduled 1 100 ∧
      sAfterSecondOk.contentLength = some 100 ∧
      sAfterSecondOk.acceptRanges = true := by
  decide

/-- C7 (amended): `contentLength` and `acceptRanges` are (re)computed by any
successful response processed while the stored `contentLength` is still
unusable (`undefined`, `NaN` or `0`), and are frozen as soon as a nonzero
length is stored; at the deciding response, `acceptRanges` is true iff the
server sent `accept-ranges: bytes` AND the learned content length is
positive AND `maxReconnects > 0`.  When the first successful response
carries a positive `content-length`, this coincides with the original
claim. -/
theorem claim7_corrected (s : SessionState) (res : Response)
    (ae : Option (String → Option String)) :
    (clTruthy s.contentLength = true → learnContentLength s res = s) ∧
      (clTruthy s.contentLength = false →
        (learnContentLength s res).contentLength = res.contentLengthHdr ∧
          (learnContentLength s res).acceptRanges
            = ((res.acceptRangesHdr = some "bytes" : Bool) &&
                clPos res.contentLengthHdr && decide (0 < s.opts.maxReconnects))) ∧
      (s.destroyed = false → res.statusCode = 200 →
        (handleResponse s res ae).2
          = learnContentLength { s with activeDecodedStream := true } res) := by
  refine ⟨?_, ?_, ?_⟩
  · intro ht
    simp [learnContentLength, ht]
  · intro hf
    simp [learnContentLength, hf]
  · intro hds hsc
    simp [handleResponse, hds, hsc, redirectStatusCodes, retryStatusCodes]

/-- C7, witness: a first successful response carrying `content-length: 100`
fixes both values at once, and a subsequent response cannot change them. -/
theorem claim7_corrected_witness :
    clTruthy sFreshRec.contentLength = false ∧
      (learnContentLength sFreshRec rOkRanged).contentLength = some 100 ∧
      (learnContentLength sFreshRec rOkRanged).acceptRanges = true ∧
      clTruthy (learnContentLength sFreshRec rOkRanged).contentLength = true ∧
      learnContentLength (learnContentLength sFreshRec rOkRanged) rOkNoLength
        = learnContentLength sFreshRec rOkRanged := by
  refine ⟨by decide, ?_, ?_, by decide, ?_⟩
  · exact ((claim7_corrected sFreshRec rOkRanged none).2.1 (by decide)).1.trans
      (by decide)
  · exact ((claim7_corrected sFreshRec rOkRanged none).2.1 (by decide)).2.trans
      (by decide)
  · exact (claim7_corrected (learnContentLength sFreshRec rOkRanged)
      rOkNoLength none).1 (by decide)

/-- C4, counterexample: a fresh session (retry budget untouched, `0 < 2`)
that receives a bare `500` fails fatally at once — `onError` routes it into
`retryRequest` with a status code and a message that is not `ENOTFOUND`, so
no retry is scheduled.  This contradicts the claim's "5xx … retried per
budget" (which also contradicts the claim's own iff). -/
theorem claim4_counterexample :
    (handleResponse sFresh rServerError none).1
        = ResponseOutcome.fatal (MErr.statusCode 500) ∧
      sFresh.retries < sFresh.opts.maxRetries := by
  decide

/-- C4 (amended): for a pre-stream failure on a live session, a retry is
scheduled iff `retryCount < maxRetries` AND (the failure carries no status
code OR the error message is `ENOTFOUND`).  Consequently any 4xx other than
429 is fatal immediately, and a pre-stream 5xx other than 503 is *also*
fatal immediately (its synthesized error carries the status code and its
message is never `ENOTFOUND`); only 429 and 503 are retried per budget, via
the rate-limit branch that passes no status code, and exhausting that
budget surfaces a `StatusCode` error carrying the numeric code. -/
theorem claim4_corrected (s : SessionState) (ro : RetryOptions)
    (res : Response) (ae : Option (String → Option String))
    (hds : s.destroyed = false) (hhs : downloadHasStarted s = false) :
    ((retryRequest s ro).1 ≠ RetryDecision.noAction ↔
        ((ro.statusCode = none ∨ ro.err.map MErr.toMessage = some "ENOTFOUND") ∧
          s.retries < s.opts.maxRetries)) ∧
      (400 ≤ res.statusCode → res.statusCode < 500 → res.statusCode ≠ 429 →
        (handleResponse s res ae).1
          = ResponseOutcome.fatal (MErr.statusCode res.statusCode)) ∧
      (500 ≤ res.statusCode → res.statusCode ≠ 503 →
        (handleResponse s res ae).1
          = ResponseOutcome.fatal (MErr.statusCode res.statusCode)) ∧
      (res.statusCode ∈ retryStatusCodes → s.retries < s.opts.maxRetries →
        (handleResponse s res ae).1 ≠ ResponseOutcome.fatal (MErr.statusCode res.statusCode) ∧
          (handleResponse s res ae).1
            = ResponseOutcome.retrying (RetryDecision.retryScheduled (s.retries + 1)
                (jsOrNat res.retryAfter
                  (min ((s.retries + 1) * s.opts.backoff.inc) s.opts.backoff.maxB)))) ∧
      (res.statusCode ∈ retryStatusCodes → s.opts.maxRetries ≤ s.retries →
        (handleResponse s res ae).1
          = ResponseOutcome.fatal (MErr.statusCode res.statusCode)) := by
  have hmem : ∀ c : Nat, 400 ≤ c → c ∉ redirectStatusCodes := by
    intro c hc
    simp only [redirectStatusCodes, List.mem_cons, List.not_mem_nil, or_false]
    omega
  refine ⟨?_, ?_, ?_, ?_, ?_⟩
  · constructor
    · intro hne
      unfold retryRequest at hne
      rw [hds] at hne
      simp only [Bool.false_eq_true, if_false, hhs] at hne
      by_cases hcond : ro.statusCode = none ∨ ro.err.map MErr.toMessage = some "ENOTFOUND"
      · rw [if_pos hcond] at hne
        by_cases hbud : s.retries < s.opts.maxRetries
        · exact ⟨hcond, hbud⟩
        · rw [if_neg hbud] at hne
          exact absurd rfl hne
      · rw [if_neg hcond] at hne
        exact absurd rfl hne
    · rintro ⟨hcond, hbud⟩
      unfold retryRequest
      rw [hds]
      simp only [Bool.false_eq_true, if_false, hhs]
      rw [if_pos hcond, if_pos hbud]
      simp
  · intro h1 h2 h3
    have hnr : res.statusCode ∉ retryStatusCodes := by
      simp only [retryStatusCodes, List.mem_cons, List.not_mem_nil, or_false]
      omega
    have hcls : res.statusCode ≠ 0 ∧ (res.statusCode < 200 ∨ res.statusCode ≥ 400) := by
      omega
    unfold handleResponse
    rw [if_neg (by simp [hds]), if_neg (hmem res.statusCode h1), if_neg hnr,
      if_pos hcls, if_neg (by omega : ¬res.statusCode ≥ 500)]
  · intro h1 h2
    have h400 : 400 ≤ res.statusCode := by omega
    have hnr : res.statusCode ∉ retryStatusCodes := by
      simp only [retryStatusCodes, List.mem_cons, List.not_mem_nil, or_false]
      omega
    have hcls : res.statusCode ≠ 0 ∧ (res.statusCode < 200 ∨ res.statusCode ≥ 400) := by
      omega
    unfold handleResponse
    rw [if_neg (by simp [hds]), if_neg (hmem res.statusCode h400), if_neg hnr,
      if_pos hcls, if_pos (by omega : res.statusCode ≥ 500)]
    have hmsg : (MErr.statusCode res.statusCode).toMessage ≠ "ENOTFOUND" :=
      statusMessage_ne_enotfound (toString res.statusCode)
    unfold onError retryRequest
    rw [if_neg (by simp [hds]), if_neg (by simp [hhs]),
      if_neg (by simp [MErr.toMessage] at hmsg ⊢; exact hmsg)]
  · intro h1 h2
    have hnrd : res.statusCode ∉ redirectStatusCodes := by
      have : res.statusCode = 429 ∨ res.statusCode = 503 := by
        simpa [retryStatusCodes] using h1
      simp only [redirectStatusCodes, List.mem_cons, List.not_mem_nil, or_false]
      omega
    constructor
    · simp [handleResponse, hds, hnrd, h1, retryRequest, hhs, h2]
    · simp [handleResponse, hds, hnrd, h1, retryRequest, hhs, h2]
  · intro h1 h2
    have hnrd : res.statusCode ∉ redirectStatusCodes := by
      have : res.statusCode = 429 ∨ res.statusCode = 503 := by
        simpa [retryStatusCodes] using h1
      simp only [redirectStatusCodes, List.mem_cons, List.not_mem_nil, or_false]
      omega
    have hbud : ¬s.retries < s.opts.maxRetries := Nat.not_lt.mpr h2
    simp [handleResponse, hds, hnrd, h1, retryRequest, hhs, hbud]

/-- C4, witness: the deciding branches at concrete inputs — a 404 is fatal
at once, a 429 is retried on a fresh budget, and three successive 429s on a
default budget of 2 end in `StatusCode(429)`. -/
theorem claim4_corrected_witness :
    (handleResponse sFresh ({ statusCode := 404 } : Response) none).1
        = ResponseOutcome.fatal (MErr.statusCode 404) ∧
      (handleResponse sFresh rRateLimited none).1
        = ResponseOutcome.retrying (RetryDecision.retryScheduled 1
            (jsOrNat rRateLimited.retryAfter (min (1 * 100) 10000))) ∧
      (handleResponse { sFresh with retries := 2 } rRateLimited none).1
        = ResponseOutcome.fatal (MErr.statusCode 429) := by
  refine ⟨?_, ?_, ?_⟩
  · exact (claim4_corrected sFresh {} ({ statusCode := 404 } : Response) none
      (by decide) (by decide)).2.1 (by decide) (by decide) (by decide)
  · exact ((claim4_corrected sFresh {} rRateLimited none
      (by decide) (by decide)).2.2.2.1 (by decide) (by decide)).2
  · exact (claim4_corrected { sFresh with retries := 2 } {} rRateLimited none
      (by decide) (by decide)).2.2.2.2 (by decide) (by decide)

/-- C3: for a response with status in {301, 302, 303, 307, 308} on a live
session, the outcome is a fatal `TooManyRedirects` exactly when
`redirectCount >= maxRedirects` (so feeding redirect responses to a fresh
session, the first `maxRedirects` are followed and the (maxRedirects+1)-th
fails); below the budget a `Location` header that is absent — or present
but empty, which line 226's truthiness test treats the same way — is a
fatal `MissingRedirectLocation`, and a (truthy) `Location` replaces the
target URL, increments the redirect counter and starts a new attempt after
the Retry-After delay (seconds × 1000) or 0. -/
theorem claim3_confirmed (s : SessionState) (res : Response)
    (ae : Option (String → Option String)) (loc : String)
    (hds : s.destroyed = false) (hsc : res.statusCode ∈ redirectStatusCodes) :
    ((handleResponse s res ae).1 = ResponseOutcome.fatal MErr.tooManyRedirects ↔
        s.opts.maxRedirects ≤ s.redirects) ∧
      (s.redirects < s.opts.maxRedirects →
        res.location = none ∨ res.location = some "" →
        (handleResponse s res ae).1
          = ResponseOutcome.fatal (MErr.missingRedirectLocation res.statusCode)) ∧
      (s.redirects < s.opts.maxRedirects → res.location = some loc → loc ≠ "" →
        (handleResponse s res ae).1
            = ResponseOutcome.redirected loc
                (match res.retryAfter with
                 | some ra => ra * 1000
                 | none => 0) ∧
          (handleResponse s res ae).2.url = loc ∧
          (handleResponse s res ae).2.redirects = s.redirects + 1) ∧
      (res.location = some loc → loc ≠ "" → s.redirects = 0 →
        (∀ k, k < s.opts.maxRedirects →
          ∃ d, (handleResponse ((fun st => (handleResponse st res ae).2)^[k] s) res ae).1
            = ResponseOutcome.redirected loc d) ∧
        (handleResponse
            ((fun st => (handleResponse st res ae).2)^[s.opts.maxRedirects] s) res ae).1
          = ResponseOutcome.fatal MErr.tooManyRedirects) := by
  have hbase : ∀ t : SessionState, t.destroyed = false →
      ((t.opts.maxRedirects ≤ t.redirects →
        (handleResponse t res ae).1 = ResponseOutcome.fatal MErr.tooManyRedirects) ∧
       (t.redirects < t.opts.maxRedirects →
        res.location = none ∨ res.location = some "" →
        (handleResponse t res ae).1
          = ResponseOutcome.fatal (MErr.missingRedirectLocation res.statusCode)) ∧
       (∀ u : String, t.redirects < t.opts.maxRedirects → res.location = some u →
        u ≠ "" →
        (handleResponse t res ae).1
          = ResponseOutcome.redirected u
              (match res.retryAfter with
               | some ra => ra * 1000
               | none => 0))) := by
    intro t htd
    refine ⟨?_, ?_, ?_⟩
    · intro hb
      unfold handleResponse
      rw [if_neg (by simp [htd]), if_pos hsc, if_pos hb]
    · intro hb hloc
      unfold handleResponse
      rw [if_neg (by simp [htd]), if_pos hsc, if_neg (Nat.not_le.mpr hb)]
      rcases hloc with h | h
      · rw [h]
      · rw [h]
        exact rfl
    · intro u hb hloc hne
      unfold handleResponse
      rw [if_neg (by simp [htd]), if_pos hsc, if_neg (Nat.not_le.mpr hb), hloc]
      simp [hne]
  refine ⟨?_, (hbase s hds).2.1, ?_, ?_⟩
  · constructor
    · intro hout
      by_contra hb
      have hlt := Nat.lt_of_not_le hb
      cases hloc : res.location with
      | none =>
        rw [(hbase s hds).2.1 hlt (Or.inl hloc)] at hout
        simp at hout
      | some u =>
        by_cases hu : u = ""
        · rw [(hbase s hds).2.1 hlt (Or.inr (hloc.trans (by rw [hu])))] at hout
          simp at hout
        · rw [(hbase s hds).2.2 u hlt hloc hu] at hout
          simp at hout
    · exact (hbase s hds).1
  · intro hb hloc hne
    refine ⟨(hbase s hds).2.2 loc hb hloc hne, ?_, ?_⟩ <;>
    · unfold handleResponse
      rw [if_neg (by simp [hds]), if_pos hsc, if_neg (Nat.not_le.mpr hb), hloc]
      simp [hne]
  · intro hloc hne hz
    have hiter := redirect_iterate res ae hsc s hds
    constructor
    · intro k hk
      obtain ⟨h1, h2, h3⟩ := hiter k
      refine ⟨(match res.retryAfter with
               | some ra => ra * 1000
               | none => 0), ?_⟩
      exact (hbase _ h2).2.2 loc (by rw [h1, h3, hz, Nat.zero_add]; exact hk) hloc hne
    · obtain ⟨h1, h2, h3⟩ := hiter s.opts.maxRedirects
      exact (hbase _ h2).1 (by rw [h1, h3, hz, Nat.zero_add])

/-- C3, witness: a fresh session receiving a `302` with a `Location` and
`Retry-After: 3` follows the redirect after 3000 ms, replacing the URL and
bumping the counter; and with ten prior redirects (`maxRedirects = 10`) the
same response is fatal `TooManyRedirects`. -/
theorem claim3_confirmed_witness :
    (handleResponse sFresh rRedirect none).1
        = ResponseOutcome.redirected "http://mysite.com/redirected"
            (match rRedirect.retryAfter with
             | some ra => ra * 1000
             | none => 0) ∧
      (handleResponse sFresh rRedirect none).2.url = "http://mysite.com/redirected" ∧
      (handleResponse { sFresh with redirects := 10 } rRedirect none).1
        = ResponseOutcome.fatal MErr.tooManyRedirects := by
  refine ⟨?_, ?_, ?_⟩
  · exact ((claim3_confirmed sFresh rRedirect none "http://mysite.com/redirected"
      (by decide) (by decide)).2.2.1 (by decide) (by decide) (by decide)).1
  · exact ((claim3_confirmed sFresh rRedirect none "http://mysite.com/redirected"
      (by decide) (by decide)).2.2.1 (by decide) (by decide) (by decide)).2.1
  · exact (claim3_confirmed { sFresh with redirects := 10 } rRedirect none
      "http://mysite.com/redirected" (by decide) (by decide)).1.mpr (by decide)

end Miniget
